import Mathlib

/-!
Shallow embedding of the anomaly-detection and alert-lifecycle core of the
Distributed-System-Monitoring-AI-platform repository
(`backend/app/services/alert_manager.py` and
`backend/app/services/ai_engine.py`), together with proofs settling the
frozen specification claims about it.

Modelling conventions:
* Python `datetime.now()` is modelled as an explicit clock argument of type
  `Int` (seconds); 24 hours is `86400`.
* Python dicts with known keys become structures with `Option` fields
  (`.get(k, 0)` becomes `Option.getD`); the `active_alerts` dict becomes an
  insertion-ordered association list with unique keys.
* Python floats become `Rat` (the code only compares and linearly combines
  metric values).
* The sklearn IsolationForest model is external library code: its
  `predict`/`decision_function` outputs on the current snapshot are
  abstracted as a `ModelOracle` parameter; the repository's own decision
  logic around those outputs is embedded exactly.
-/

namespace SysMon

/-- Time stamps in seconds; `datetime.now()` is an explicit argument. -/
abbrev Time := Int

/-! ## Alert manager (`backend/app/services/alert_manager.py`) -/

/-- The `alert_data` dict handed to `AlertManager.process_alert`; fields
other than `type` are read with `.get` in the source, hence optional. -/
structure AlertData where
  type : String
  agent_id : Option String := none
  severity : Option String := none
  description : Option String := none
  suggested_action : Option String := none
deriving DecidableEq, Repr

/-- One alert record, as stored in `active_alerts` and `alert_history`. -/
structure Alert where
  id : String
  type : String
  severity : String
  description : String
  first_seen : Time
  last_seen : Time
  count : Nat
  status : String
  agent_id : Option String
  suggested_action : Option String
  resolved_at : Option Time := none
deriving DecidableEq, Repr

/-- State of `AlertManager`: the `active_alerts` dict (insertion-ordered
association list keyed by alert id) and the `alert_history` list. -/
structure AlertManager where
  active_alerts : List (String × Alert) := []
  alert_history : List Alert := []
deriving DecidableEq, Repr

/-- A fresh `AlertManager()` (empty dict, empty history). -/
def emptyManager : AlertManager := {}

/-- Dict lookup `self.active_alerts[k]` / `k in self.active_alerts`. -/
def lookupAlert (k : String) : List (String × Alert) → Option Alert
  | [] => none
  | (k', a) :: rest => if k' = k then some a else lookupAlert k rest

/-- Dict value assignment at an existing key. -/
def updateAlert (k : String) (a : Alert) : List (String × Alert) → List (String × Alert)
  | [] => []
  | (k', a') :: rest =>
      if k' = k then (k', a) :: updateAlert k a rest else (k', a') :: updateAlert k a rest

/-- Dict `del self.active_alerts[k]`. -/
def eraseAlert (k : String) : List (String × Alert) → List (String × Alert)
  | [] => []
  | (k', a') :: rest =>
      if k' = k then eraseAlert k rest else (k', a') :: eraseAlert k rest

/-- The alert identity key `f"{alert_data['type']}_{alert_data.get('agent_id', 'unknown')}"`. -/
def alertId (d : AlertData) : String := d.type ++ "_" ++ d.agent_id.getD "unknown"

/-- Embeds `AlertManager.process_alert`: upsert keyed by `alertId`.  A repeat key
bumps `last_seen` and `count` on the active record; a new key creates an
active record with `count = 1` and appends a copy of it (a creation-time
snapshot, never updated afterwards) to `alert_history`.  The
critical-severity notification branch only logs and is stateless, so it is
omitted.  Returns the stored record and the new state. -/
def process_alert (now : Time) (d : AlertData) (st : AlertManager) : Alert × AlertManager :=
  match lookupAlert (alertId d) st.active_alerts with
  | some a =>
      let a' := { a with last_seen := now, count := a.count + 1 }
      (a', { st with active_alerts := updateAlert (alertId d) a' st.active_alerts })
  | none =>
      let a : Alert :=
        { id := alertId d, type := d.type, severity := d.severity.getD "medium",
          description := d.description.getD "", first_seen := now, last_seen := now,
          count := 1, status := "active", agent_id := d.agent_id,
          suggested_action := d.suggested_action }
      (a, { active_alerts := st.active_alerts ++ [(alertId d, a)],
            alert_history := st.alert_history ++ [a] })

/-- Embeds `AlertManager.resolve_alert`: if the key is active, the source mutates the
stored dict (`status := 'resolved'`, `resolved_at := now`) and then deletes it
from `active_alerts`, returning `True`; the history copy is untouched.  An
unknown key returns `False` with no state change. -/
def resolve_alert (k : String) (now : Time) (st : AlertManager) : Bool × AlertManager :=
  match lookupAlert k st.active_alerts with
  | some a =>
      let a' := { a with status := "resolved", resolved_at := some now }
      (true, { st with active_alerts := eraseAlert k (updateAlert k a' st.active_alerts) })
  | none => (false, st)

/-- Embeds `AlertManager.get_active_alerts`: `list(self.active_alerts.values())`. -/
def get_active_alerts (st : AlertManager) : List Alert := st.active_alerts.map Prod.snd

/-- Embeds `AlertManager.get_alert_history`: `self.alert_history[-limit:]`
(the Python slice returns the whole list when `limit = 0`). -/
def get_alert_history (limit : Nat) (st : AlertManager) : List Alert :=
  if limit = 0 then st.alert_history
  else st.alert_history.drop (st.alert_history.length - limit)

/-- Purge test used by `cleanup_old_alerts`:
`alert.get('status') == 'resolved' and alert.get('resolved_at', datetime.now()) < cutoff_time`. -/
def shouldPurge (now : Time) (a : Alert) : Bool :=
  decide (a.status = "resolved") && decide (a.resolved_at.getD now < now - 86400)

/-- Embeds `AlertManager.cleanup_old_alerts`: removes from `active_alerts` every
entry that is `resolved` with `resolved_at` older than 24 hours; the history
list is not touched. -/
def cleanup_old_alerts (now : Time) (st : AlertManager) : AlertManager :=
  { st with active_alerts := st.active_alerts.filter (fun p => !shouldPurge now p.2) }

/-- The externally reachable alert-manager operations, for reasoning about
reachable states. -/
inductive AlertOp where
  | process (now : Time) (d : AlertData)
  | resolve (now : Time) (k : String)
  | cleanup (now : Time)
deriving Repr

/-- One alert-manager operation step. -/
def runOp (st : AlertManager) : AlertOp → AlertManager
  | .process now d => (process_alert now d st).2
  | .resolve now k => (resolve_alert k now st).2
  | .cleanup now => cleanup_old_alerts now st

/-- A trace of alert-manager operations from a starting state. -/
def runOps (st : AlertManager) (ops : List AlertOp) : AlertManager := ops.foldl runOp st

/-- Invariant: every stored alert (active or historical) has status "active". -/
def AllActive (st : AlertManager) : Prop :=
  (∀ p ∈ st.active_alerts, p.2.status = "active") ∧ ∀ a ∈ st.alert_history, a.status = "active"

/-! ## AI engine (`backend/app/services/ai_engine.py`) -/

/-- The `cpu` metric group of one snapshot; fields are read with `.get(k, 0)`. -/
structure CpuData where
  usage_percent : Option Rat := none
  load_avg_1m : Option Rat := none
  load_avg_5m : Option Rat := none
  context_switches : Option Rat := none
deriving DecidableEq, Repr

/-- The `memory` metric group of one snapshot. -/
structure MemoryData where
  usage_percent : Option Rat := none
  available_mb : Option Rat := none
  swap_usage_percent : Option Rat := none
deriving DecidableEq, Repr

/-- The `disk` metric group of one snapshot. -/
structure DiskData where
  usage_percent : Option Rat := none
  read_bytes_per_sec : Option Rat := none
  write_bytes_per_sec : Option Rat := none
  io_wait_percent : Option Rat := none
deriving DecidableEq, Repr

/-- The `network` metric group of one snapshot. -/
structure NetworkData where
  latency_ms : Option Rat := none
  packet_loss_percent : Option Rat := none
  bandwidth_usage_percent : Option Rat := none
  connections_count : Option Rat := none
  bytes_sent_per_sec : Option Rat := none
  bytes_recv_per_sec : Option Rat := none
deriving DecidableEq, Repr

/-- One `metrics_data` snapshot: zero or more nested metric groups
(`'cpu' in metrics_data` becomes `Option.isSome`). -/
structure MetricsData where
  cpu : Option CpuData := none
  memory : Option MemoryData := none
  disk : Option DiskData := none
  network : Option NetworkData := none
deriving DecidableEq, Repr

/-- One anomaly Finding dict.  The free-text `description` field is omitted:
it only interpolates the same numbers already carried by `value`/`score`. -/
structure Finding where
  type : String
  severity : String
  value : Option Rat := none
  score : Option Rat := none
  threshold : Option Rat := none
  suggested_action : String
deriving DecidableEq, Repr

/-- Python slice `l[-k:]` (for `k > 0`): the last `k` elements, all of them
when fewer are present. -/
def lastN (k : Nat) (l : List α) : List α := l.drop (l.length - k)

/-- Arithmetic mean, as `np.mean` over a list of values. -/
def mean (l : List Rat) : Rat := l.sum / l.length

/-- Slope of `np.polyfit(range(n), ys, 1)`: the degree-1 least-squares
coefficient over sample indices `0, 1, …, n-1`. -/
def polyfitSlope (ys : List Rat) : Rat :=
  let n : Rat := ys.length
  let xs : List Rat := (List.range ys.length).map (fun i => (i : Rat))
  let sx := xs.sum
  let sy := ys.sum
  let sxy := ((xs.zip ys).map (fun p => p.1 * p.2)).sum
  let sxx := (xs.map (fun x => x * x)).sum
  (n * sxy - sx * sy) / (n * sxx - sx * sx)

/-- Python `int(q)`: truncation toward zero. -/
def ratTrunc (q : Rat) : Int := if q < 0 then -(⌊-q⌋) else ⌊q⌋

/-- Deque append with `maxlen = n`: appends on the right, evicting from the
left when over capacity. -/
def pushBounded (n : Nat) (l : List α) (x : α) : List α :=
  let l' := l ++ [x]
  if n < l'.length then l'.drop (l'.length - n) else l'

/-- Embeds `AIEngine._extract_system_features`: concatenates one fixed-order block
per present group (cpu 4 fields, memory 3, disk 4), each missing field inside
a present group contributing 0; `None` when the list stays empty. -/
def extract_system_features (m : MetricsData) : Option (List Rat) :=
  let fs :=
    (match m.cpu with
     | some c => [c.usage_percent.getD 0, c.load_avg_1m.getD 0, c.load_avg_5m.getD 0,
                  c.context_switches.getD 0]
     | none => []) ++
    (match m.memory with
     | some mm => [mm.usage_percent.getD 0, mm.available_mb.getD 0, mm.swap_usage_percent.getD 0]
     | none => []) ++
    (match m.disk with
     | some dd => [dd.usage_percent.getD 0, dd.read_bytes_per_sec.getD 0,
                   dd.write_bytes_per_sec.getD 0, dd.io_wait_percent.getD 0]
     | none => [])
  if fs.isEmpty then none else some fs

/-- Embeds `AIEngine._extract_network_features`: the 6 network fields in fixed order
when the `network` group is present, `None` otherwise. -/
def extract_network_features (m : MetricsData) : Option (List Rat) :=
  match m.network with
  | some n => some [n.latency_ms.getD 0, n.packet_loss_percent.getD 0,
                    n.bandwidth_usage_percent.getD 0, n.connections_count.getD 0,
                    n.bytes_sent_per_sec.getD 0, n.bytes_recv_per_sec.getD 0]
  | none => none

/-- Outputs of the (external, sklearn) IsolationForest on the current
snapshot's scaled feature vector: the binary `predict` label (−1 = outlier)
and the continuous `decision_function` anomaly score. -/
structure ModelOracle where
  label : Int
  score : Rat
deriving DecidableEq, Repr

/-- Embeds `AIEngine._detect_system_anomalies`: acts only when the history deque
holds more than 50 entries and more than 10 of the last 50 yield system
feature vectors; then refits on that slice and scores the current snapshot
through the model (abstracted by `oracle`).  An outlier label emits one
Finding, severity `high` exactly when the score is below −0.5. -/
def detect_system_anomalies (oracle : ModelOracle) (hist : List MetricsData) : List Finding :=
  if 50 < hist.length then
    let training := (lastN 50 hist).filterMap extract_system_features
    if 10 < training.length then
      if oracle.label = -1 then
        [{ type := "system_anomaly",
           severity := if oracle.score < -(1/2) then "high" else "medium",
           score := some oracle.score,
           suggested_action := "investigate_system_resources" }]
      else []
    else []
  else []

/-- Embeds `AIEngine._detect_network_anomalies`: same shape with a 30-entry window,
score cut −0.3, and network features. -/
def detect_network_anomalies (oracle : ModelOracle) (hist : List MetricsData) : List Finding :=
  if 30 < hist.length then
    let training := (lastN 30 hist).filterMap extract_network_features
    if 10 < training.length then
      if oracle.label = -1 then
        [{ type := "network_anomaly",
           severity := if oracle.score < -(3/10) then "high" else "medium",
           score := some oracle.score,
           suggested_action := "check_network_connectivity" }]
      else []
    else []
  else []

/-- CPU clause of `_detect_threshold_anomalies`: breach above 80, critical
above 95. -/
def cpu_threshold_check : Option CpuData → List Finding
  | some c =>
      let u := c.usage_percent.getD 0
      if 80 < u then
        [{ type := "cpu_threshold_breach",
           severity := if 95 < u then "critical" else "high",
           value := some u, threshold := some 80,
           suggested_action := "identify_cpu_intensive_processes" }]
      else []
  | none => []

/-- Memory clause of `_detect_threshold_anomalies`: breach above 85, critical
above 95. -/
def memory_threshold_check : Option MemoryData → List Finding
  | some mm =>
      let u := mm.usage_percent.getD 0
      if 85 < u then
        [{ type := "memory_threshold_breach",
           severity := if 95 < u then "critical" else "high",
           value := some u, threshold := some 85,
           suggested_action := "free_memory_resources" }]
      else []
  | none => []

/-- Disk clause of `_detect_threshold_anomalies`: breach above 90, critical
above 98. -/
def disk_threshold_check : Option DiskData → List Finding
  | some dd =>
      let u := dd.usage_percent.getD 0
      if 90 < u then
        [{ type := "disk_threshold_breach",
           severity := if 98 < u then "critical" else "high",
           value := some u, threshold := some 90,
           suggested_action := "cleanup_disk_space" }]
      else []
  | none => []

/-- Network-latency clause of `_detect_threshold_anomalies`: breach above
200 ms, always `medium`. -/
def network_latency_check : Option NetworkData → List Finding
  | some n =>
      let u := n.latency_ms.getD 0
      if 200 < u then
        [{ type := "network_latency_high", severity := "medium",
           value := some u, threshold := some 200,
           suggested_action := "check_network_connectivity" }]
      else []
  | none => []

/-- Embeds `AIEngine._detect_threshold_anomalies`: stateless per-metric comparisons
against the fixed thresholds `cpu 80 / memory 85 / disk 90 / latency 200`;
the source appends each group's breach Finding to one list in this order. -/
def detect_threshold_anomalies (m : MetricsData) : List Finding :=
  cpu_threshold_check m.cpu ++ memory_threshold_check m.memory ++
  disk_threshold_check m.disk ++ network_latency_check m.network

/-- The cpu usage values read by the pattern detector: the `usage_percent`
(default 0) of every cpu-bearing entry among the last 20 buffered. -/
def cpuValuesOf (hist : List MetricsData) : List Rat :=
  (lastN 20 hist).filterMap (fun e => e.cpu.map (fun c => c.usage_percent.getD 0))

/-- CPU clause of `_detect_pattern_anomalies`: over the cpu-bearing entries
among the last 20 buffered (needs ≥ 15), compare the mean of the last 5
values against the mean of slice `[-15:-10]`; a rise of more than 30 points
emits a high-severity `cpu_trend_anomaly`. -/
def cpu_trend_rule (hist : List MetricsData) : List Finding :=
  let cpu_values := cpuValuesOf hist
  if 15 ≤ cpu_values.length then
    let recent_avg := mean (lastN 5 cpu_values)
    let older_avg := mean ((cpu_values.drop (cpu_values.length - 15)).take 5)
    if older_avg + 30 < recent_avg then
      [{ type := "cpu_trend_anomaly", severity := "high",
         suggested_action := "investigate_cpu_spike" }]
    else []
  else []

/-- Memory clause of `_detect_pattern_anomalies`: over the memory-bearing
entries among the last 15 buffered (needs ≥ 10), a least-squares slope above
2 points per sample emits a high-severity `memory_leak_pattern`. -/
def memory_leak_rule (hist : List MetricsData) : List Finding :=
  let memory_values :=
    (lastN 15 hist).filterMap (fun e => e.memory.map (fun mm => mm.usage_percent.getD 0))
  if 10 ≤ memory_values.length then
    if 2 < polyfitSlope memory_values then
      [{ type := "memory_leak_pattern", severity := "high",
         suggested_action := "investigate_memory_leak" }]
    else []
  else []

/-- Embeds `AIEngine._detect_pattern_anomalies`: returns early (nothing) below 20
buffered entries, otherwise appends the cpu-trend and memory-leak rule
outputs. -/
def detect_pattern_anomalies (hist : List MetricsData) : List Finding :=
  if hist.length < 20 then []
  else cpu_trend_rule hist ++ memory_leak_rule hist

/-- State of `AIEngine`.  The IsolationForest models, StandardScaler objects and
`patterns` dict are opaque external-library values; their types are
parameters, which suffices to state that they are not modified. -/
structure AIEngineState (μ σ π : Type) where
  initialized : Bool := false
  historical_data : List MetricsData := []
  anomaly_models : μ
  scalers : σ
  patterns : π

/-- Embeds `AIEngine.detect_anomalies`.  When not initialized it returns `[]` with no
state change at all.  Otherwise the snapshot is appended to the bounded
history deque first.  The source then tests `if system_features:` /
`if network_features:` on numpy arrays; for any snapshot holding at least one
metric group the extracted array has more than one element, so the truthiness
test raises `ValueError`, the surrounding `except` swallows it and the call
returns `[]` (the append having already happened).  Only group-less snapshots
reach the threshold and pattern detectors, and for them both extractors
return `None`, so the model-based detectors are skipped and the
models/scalers/patterns are never mutated by this method. -/
def detect_anomalies (st : AIEngineState μ σ π) (m : MetricsData) :
    List Finding × AIEngineState μ σ π :=
  if st.initialized = false then ([], st)
  else
    let hist := pushBounded 1000 st.historical_data m
    let st' := { st with historical_data := hist }
    match extract_system_features m, extract_network_features m with
    | none, none => (detect_threshold_anomalies m ++ detect_pattern_anomalies hist, st')
    | _, _ => ([], st')

/-- One resource's entry in the `predict_failure` result. -/
structure FailurePrediction where
  time_to_failure : Int
  confidence : Rat
  current_usage : Rat
  trend : Rat
deriving DecidableEq, Repr

/-- Embeds `AIEngine.predict_failure` as (disk component, memory component).  Nothing
below 10 buffered entries.  Per resource (only when the *current* snapshot
carries that group): take the group-bearing entries among the last 10 (needs
≥ 5), fit a least-squares slope; disk predicts when `slope > 0.1` and
`(100 − current)/slope < 100`, memory when `slope > 0.5` and
`(95 − current)/slope < 50`; confidence is `min(0.9, slope·10)` resp.
`min(0.85, slope·5)`. -/
def predict_failure (hist : List MetricsData) (m : MetricsData) :
    Option FailurePrediction × Option FailurePrediction :=
  if hist.length < 10 then (none, none)
  else
    let diskPred :=
      match m.disk with
      | none => none
      | some _ =>
          let h := (lastN 10 hist).filterMap (fun e => e.disk.map (fun dd => dd.usage_percent.getD 0))
          if 5 ≤ h.length then
            let slope := polyfitSlope h
            let cur := (h.getLast?).getD 0
            if 1/10 < slope then
              let t := (100 - cur) / slope
              if t < 100 then
                some { time_to_failure := ratTrunc t, confidence := min (9/10) (slope * 10),
                       current_usage := cur, trend := slope }
              else none
            else none
          else none
    let memPred :=
      match m.memory with
      | none => none
      | some _ =>
          let h := (lastN 10 hist).filterMap (fun e => e.memory.map (fun mm => mm.usage_percent.getD 0))
          if 5 ≤ h.length then
            let slope := polyfitSlope h
            let cur := (h.getLast?).getD 0
            if 1/2 < slope then
              let t := (95 - cur) / slope
              if t < 50 then
                some { time_to_failure := ratTrunc t, confidence := min (17/20) (slope * 5),
                       current_usage := cur, trend := slope }
              else none
            else none
          else none
    (diskPred, memPred)

/-- A snapshot carrying only a cpu usage value. -/
def cpuSnap (v : Rat) : MetricsData := { cpu := some { usage_percent := some v } }

/-- A snapshot carrying only a memory usage value. -/
def memSnap (v : Rat) : MetricsData := { memory := some { usage_percent := some v } }

/-- 15 buffered snapshots with cpu values `[10]*10 + [45]*5`. -/
def hist15 : List MetricsData := List.replicate 10 (cpuSnap 10) ++ List.replicate 5 (cpuSnap 45)

/-- 20 buffered snapshots with cpu values `[10]*15 + [45]*5`. -/
def hist20rise : List MetricsData := List.replicate 15 (cpuSnap 10) ++ List.replicate 5 (cpuSnap 45)

/-- 20 buffered snapshots with cpu values `[10]*20`. -/
def hist20flat : List MetricsData := List.replicate 20 (cpuSnap 10)

/-- A snapshot carrying only a network latency value. -/
def netSnap (v : Rat) : MetricsData := { network := some { latency_ms := some v } }

/-- A snapshot breaching all four thresholds at once. -/
def fullBreach : MetricsData :=
  { cpu := some { usage_percent := some 96 }, memory := some { usage_percent := some 96 },
    disk := some { usage_percent := some 99 }, network := some { latency_ms := some 250 } }

/-- 51 buffered cpu snapshots, enough history for the system outlier model. -/
def hist51 : List MetricsData := List.replicate 51 (cpuSnap 10)

/-- 31 buffered network snapshots, enough history for the network outlier model. -/
def hist31 : List MetricsData := List.replicate 31 (netSnap 10)

/-- The first `k` snapshots of the end-to-end scenario: memory usage rising
linearly from 10% to 70% over 60 samples (step 60/59 per sample). -/
def rampMem (k : Nat) : List MetricsData :=
  (List.range k).map (fun i : Nat => memSnap (10 + (i : Rat) * (60 / 59)))

/-- A concrete alert payload used in the concrete scenarios below. -/
def d0 : AlertData :=
  { type := "cpu_threshold_breach", agent_id := some "agent-1", severity := some "high",
    description := some "CPU usage 96% exceeds threshold",
    suggested_action := some "identify_cpu_intensive_processes" }

/-- C1/C9 scenario, step 1: first Finding with key `alertId d0` at time 0. -/
def c1Step1 : Alert × AlertManager := process_alert 0 d0 emptyManager

/-- C1 scenario, step 2: second Finding with the same key at time 10. -/
def c1Step2 : Alert × AlertManager := process_alert 10 d0 c1Step1.2

/-- C1 scenario, step 3: resolving that key at time 20. -/
def c1Step3 : Bool × AlertManager := resolve_alert (alertId d0) 20 c1Step2.2

theorem lookupAlert_erase (k : String) (l : List (String × Alert)) :
    lookupAlert k (eraseAlert k l) = none := by
  induction l with
  | nil => rfl
  | cons hd tl ih =>
      obtain ⟨k', a⟩ := hd
      by_cases h : k' = k
      · simpa [eraseAlert, h] using ih
      · simp [eraseAlert, h, lookupAlert, ih]

theorem eraseAlert_update (k : String) (a : Alert) (l : List (String × Alert)) :
    eraseAlert k (updateAlert k a l) = eraseAlert k l := by
  induction l with
  | nil => rfl
  | cons hd tl ih =>
      obtain ⟨k', b⟩ := hd
      by_cases h : k' = k <;> simp [updateAlert, eraseAlert, h, ih]

theorem mem_updateAlert {p : String × Alert} {k : String} {a : Alert}
    {l : List (String × Alert)} (hp : p ∈ updateAlert k a l) : p ∈ l ∨ p.2 = a := by
  induction l with
  | nil => simp [updateAlert] at hp
  | cons hd tl ih =>
      obtain ⟨k', b⟩ := hd
      by_cases h : k' = k
      · simp only [updateAlert, if_pos h, List.mem_cons] at hp
        rcases hp with h1 | h2
        · right; rw [h1]
        · rcases ih h2 with h3 | h3
          · exact Or.inl (List.mem_cons_of_mem _ h3)
          · exact Or.inr h3
      · simp only [updateAlert, if_neg h, List.mem_cons] at hp
        rcases hp with h1 | h2
        · exact Or.inl (h1 ▸ List.mem_cons_self _ _)
        · rcases ih h2 with h3 | h3
          · exact Or.inl (List.mem_cons_of_mem _ h3)
          · exact Or.inr h3

theorem mem_eraseAlert {p : String × Alert} {k : String}
    {l : List (String × Alert)} (hp : p ∈ eraseAlert k l) : p ∈ l := by
  induction l with
  | nil => simp [eraseAlert] at hp
  | cons hd tl ih =>
      obtain ⟨k', b⟩ := hd
      by_cases h : k' = k
      · simp only [eraseAlert, if_pos h] at hp
        exact List.mem_cons_of_mem _ (ih hp)
      · simp only [eraseAlert, if_neg h, List.mem_cons] at hp
        rcases hp with h1 | h2
        · exact h1 ▸ List.mem_cons_self _ _
        · exact List.mem_cons_of_mem _ (ih h2)

theorem lookupAlert_mem {k : String} {a : Alert} {l : List (String × Alert)}
    (h : lookupAlert k l = some a) : (k, a) ∈ l := by
  induction l with
  | nil => simp [lookupAlert] at h
  | cons hd tl ih =>
      obtain ⟨k', b⟩ := hd
      by_cases hk : k' = k
      · simp only [lookupAlert, if_pos hk, Option.some.injEq] at h
        subst hk; subst h; exact List.mem_cons_self _ _
      · simp only [lookupAlert, if_neg hk] at h
        exact List.mem_cons_of_mem _ (ih h)

theorem allActive_runOp {st : AlertManager} (h : AllActive st) (op : AlertOp) :
    AllActive (runOp st op) := by
  obtain ⟨ha, hh⟩ := h
  cases op with
  | process now d =>
      cases hl : lookupAlert (alertId d) st.active_alerts with
      | some a =>
          have hstat : a.status = "active" := ha (alertId d, a) (lookupAlert_mem hl)
          simp only [runOp, process_alert, hl]
          refine ⟨?_, hh⟩
          intro p hp
          rcases mem_updateAlert hp with h1 | h2
          · exact ha p h1
          · rw [h2]; exact hstat
      | none =>
          simp only [runOp, process_alert, hl]
          constructor
          · intro p hp
            rcases List.mem_append.1 hp with h1 | h2
            · exact ha p h1
            · simp only [List.mem_singleton] at h2
              rw [h2]
          · intro a hp
            rcases List.mem_append.1 hp with h1 | h2
            · exact hh a h1
            · simp only [List.mem_singleton] at h2
              rw [h2]
  | resolve now k =>
      cases hl : lookupAlert k st.active_alerts with
      | some a =>
          simp only [runOp, resolve_alert, hl]
          refine ⟨?_, hh⟩
          intro p hp
          rw [eraseAlert_update] at hp
          exact ha p (mem_eraseAlert hp)
      | none =>
          simp only [runOp, resolve_alert, hl]
          exact ⟨ha, hh⟩
  | cleanup now =>
      refine ⟨?_, hh⟩
      intro p hp
      exact ha p (List.mem_of_mem_filter hp)

theorem allActive_runOps (st : AlertManager) (h : AllActive st) (ops : List AlertOp) :
    AllActive (runOps st ops) := by
  induction ops generalizing st with
  | nil => exact h
  | cons op rest ih => exact ih _ (allActive_runOp h op)

theorem allActive_empty : AllActive emptyManager := by
  constructor <;> intro a ha <;> simp [emptyManager] at ha

/-! ## Claim theorems -/

/-- C1 counterexample: two `process_alert` calls with the same key give one
active alert with count 2, and `resolve_alert` removes it from the active set
returning `true` — but `get_alert_history` then holds no entry with status
"resolved" at all (only the creation-time copy with status "active" and
count 1), refuting the claim's history clause. -/
theorem C1_counterexample :
    c1Step2.2.active_alerts.map (fun p => (p.2.count, p.2.status)) = [(2, "active")] ∧
    c1Step3.1 = true ∧
    get_active_alerts c1Step3.2 = [] ∧
    get_alert_history 100 c1Step3.2 ≠ [] ∧
    (get_alert_history 100 c1Step3.2).filter (fun a => decide (a.status = "resolved")) = [] := by
  decide

/-- C1 (amended): for every identity key, two `process_alert` calls with that
key yield exactly one active alert with count 2; a subsequent `resolve_alert`
on the key returns `true` and removes it from `get_active_alerts`; and
`get_alert_history` then contains exactly the creation-time snapshot of that
alert, which keeps status "active", count 1 and no resolved-at stamp — the
resolution is not reflected in the history. -/
theorem C1_alert_dedup_resolution_amended (d : AlertData) (n1 n2 n3 : Time) :
    get_active_alerts (process_alert n2 d (process_alert n1 d emptyManager).2).2
      = [{ (process_alert n1 d emptyManager).1 with last_seen := n2, count := 2 }] ∧
    (resolve_alert (alertId d) n3
        (process_alert n2 d (process_alert n1 d emptyManager).2).2).1 = true ∧
    get_active_alerts (resolve_alert (alertId d) n3
        (process_alert n2 d (process_alert n1 d emptyManager).2).2).2 = [] ∧
    get_alert_history 100 (resolve_alert (alertId d) n3
        (process_alert n2 d (process_alert n1 d emptyManager).2).2).2
      = [(process_alert n1 d emptyManager).1] ∧
    (process_alert n1 d emptyManager).1.count = 1 ∧
    (process_alert n1 d emptyManager).1.status = "active" ∧
    (process_alert n1 d emptyManager).1.resolved_at = none := by
  simp [process_alert, resolve_alert, lookupAlert, updateAlert, eraseAlert,
        get_active_alerts, get_alert_history, emptyManager]

/-- C3: after `cleanup_old_alerts` runs on any reachable alert-manager state,
no stored alert — active or historical — has status "resolved" with a
resolved-at stamp older than 24 hours.  (This holds vacuously: resolution
deletes the record from the active set at once and the history copy keeps
status "active", so no stored alert ever has status "resolved".) -/
theorem C3_cleanup_purges_resolved (ops : List AlertOp) (now : Time) (a : Alert)
    (hmem : a ∈ get_active_alerts (cleanup_old_alerts now (runOps emptyManager ops)) ∨
            a ∈ (cleanup_old_alerts now (runOps emptyManager ops)).alert_history) :
    ¬(a.status = "resolved" ∧ ∃ t, a.resolved_at = some t ∧ t < now - 86400) := by
  have hInv : AllActive (runOps emptyManager (ops ++ [AlertOp.cleanup now])) :=
    allActive_runOps _ allActive_empty _
  have hInv' : AllActive (cleanup_old_alerts now (runOps emptyManager ops)) := by
    simpa [runOps, List.foldl_append, runOp] using hInv
  rintro ⟨hres, -⟩
  obtain ⟨hact, hhist⟩ := hInv'
  rcases hmem with h | h
  · obtain ⟨p, hp, rfl⟩ := List.mem_map.1 h
    have hstat := hact p hp
    rw [hstat] at hres
    exact absurd hres (by decide)
  · have hstat := hhist a h
    rw [hstat] at hres
    exact absurd hres (by decide)

theorem C3_cleanup_purges_resolved_witness :
    ¬(c1Step1.1.status = "resolved" ∧
      ∃ t, c1Step1.1.resolved_at = some t ∧ t < (0 : Time) - 86400) :=
  C3_cleanup_purges_resolved [AlertOp.process 0 d0] 0 c1Step1.1 (Or.inl (by decide))

/-- C9: resolving a key absent from the active set returns `false` and leaves
the manager state (active set and history) unchanged; consequently resolving
the same key twice in succession returns `false` the second time. -/
theorem C9_invalid_and_repeated_resolve :
    (∀ (st : AlertManager) (k : String) (now : Time),
        lookupAlert k st.active_alerts = none → resolve_alert k now st = (false, st)) ∧
    ∀ (st : AlertManager) (k : String) (n1 n2 : Time),
      (resolve_alert k n2 (resolve_alert k n1 st).2).1 = false := by
  constructor
  · intro st k now h
    simp [resolve_alert, h]
  · intro st k n1 n2
    cases hl : lookupAlert k st.active_alerts with
    | none => simp [resolve_alert, hl]
    | some a => simp [resolve_alert, hl, eraseAlert_update, lookupAlert_erase]

theorem C9_invalid_and_repeated_resolve_witness :
    resolve_alert "cpu_threshold_breach_ghost" 0 emptyManager = (false, emptyManager) ∧
    (resolve_alert (alertId d0) 2 (resolve_alert (alertId d0) 1 c1Step1.2).2).1 = false :=
  ⟨C9_invalid_and_repeated_resolve.1 emptyManager "cpu_threshold_breach_ghost" 0 (by decide),
   C9_invalid_and_repeated_resolve.2 c1Step1.2 (alertId d0) 1 2⟩

theorem pushBounded_eq (n : Nat) (l : List α) (x : α) :
    pushBounded n l x =
      if n < l.length + 1 then (l ++ [x]).drop (l.length + 1 - n) else l ++ [x] := by
  simp [pushBounded]

theorem pushBounded_drop (n : Nat) (xs : List α) (x : α) :
    pushBounded n (xs.drop (xs.length - n)) x = (xs ++ [x]).drop (xs.length + 1 - n) := by
  rw [pushBounded_eq]
  rcases le_or_lt (xs.length + 1) n with h | h
  · have h1 : xs.length - n = 0 := by omega
    rw [h1, List.drop_zero, if_neg (by omega)]
    have h2 : xs.length + 1 - n = 0 := by omega
    rw [h2, List.drop_zero]
  · have hD : (xs.drop (xs.length - n)).length = n := by
      rw [List.length_drop]; omega
    rw [hD, if_pos (by omega)]
    have hd : xs.drop (xs.length - n) ++ [x] = (xs ++ [x]).drop (xs.length - n) :=
      (List.drop_append_of_le_length (by omega)).symm
    rw [hd, List.drop_drop]
    congr 1
    omega

theorem foldl_pushBounded (n : Nat) (xs : List α) :
    xs.foldl (pushBounded n) [] = xs.drop (xs.length - n) := by
  induction xs using List.reverseRecOn with
  | nil => simp
  | append_singleton ys y ih =>
      rw [List.foldl_append, List.foldl_cons, List.foldl_nil, ih, pushBounded_drop]
      simp

/-- C4: the history deque never exceeds its capacity of 1000 and, after any
sequence of appends, holds exactly the most recently appended 1000 snapshots
in insertion order (all of them while fewer have been appended); and each
initialized `detect_anomalies` call performs exactly one such bounded append
of its snapshot. -/
theorem C4_buffer_bound_and_order :
    (∀ xs : List MetricsData,
        (xs.foldl (pushBounded 1000) []).length ≤ 1000 ∧
        xs.foldl (pushBounded 1000) [] = lastN 1000 xs) ∧
    ∀ (μ σ π : Type) (st : AIEngineState μ σ π) (m : MetricsData),
      st.initialized = true →
      (detect_anomalies st m).2.historical_data = pushBounded 1000 st.historical_data m := by
  constructor
  · intro xs
    rw [foldl_pushBounded]
    constructor
    · rw [List.length_drop]; omega
    · rfl
  · intro μ σ π st m h
    rcases hs : extract_system_features m with _ | v <;>
      rcases hn : extract_network_features m with _ | w <;>
        simp [detect_anomalies, h, hs, hn]

theorem C4_buffer_bound_and_order_witness :
    (detect_anomalies
        ({ initialized := true, historical_data := [], anomaly_models := (),
           scalers := (), patterns := () } : AIEngineState Unit Unit Unit)
        (cpuSnap 96)).2.historical_data = pushBounded 1000 [] (cpuSnap 96) :=
  C4_buffer_bound_and_order.2 Unit Unit Unit
    { initialized := true, historical_data := [], anomaly_models := (),
      scalers := (), patterns := () } (cpuSnap 96) rfl

theorem cpu_check_types (o : Option CpuData) :
    ∀ f ∈ cpu_threshold_check o, f.type = "cpu_threshold_breach" := by
  intro f hf
  cases o with
  | none => simp [cpu_threshold_check] at hf
  | some c =>
      simp only [cpu_threshold_check] at hf
      split at hf
      · simp only [List.mem_singleton] at hf; rw [hf]
      · simp at hf

theorem memory_check_types (o : Option MemoryData) :
    ∀ f ∈ memory_threshold_check o, f.type = "memory_threshold_breach" := by
  intro f hf
  cases o with
  | none => simp [memory_threshold_check] at hf
  | some mm =>
      simp only [memory_threshold_check] at hf
      split at hf
      · simp only [List.mem_singleton] at hf; rw [hf]
      · simp at hf

theorem disk_check_types (o : Option DiskData) :
    ∀ f ∈ disk_threshold_check o, f.type = "disk_threshold_breach" := by
  intro f hf
  cases o with
  | none => simp [disk_threshold_check] at hf
  | some dd =>
      simp only [disk_threshold_check] at hf
      split at hf
      · simp only [List.mem_singleton] at hf; rw [hf]
      · simp at hf

theorem network_check_types (o : Option NetworkData) :
    ∀ f ∈ network_latency_check o, f.type = "network_latency_high" := by
  intro f hf
  cases o with
  | none => simp [network_latency_check] at hf
  | some n =>
      simp only [network_latency_check] at hf
      split at hf
      · simp only [List.mem_singleton] at hf; rw [hf]
      · simp at hf

theorem memory_check_filter_cpu (o : Option MemoryData) :
    (memory_threshold_check o).filter (fun f => decide (f.type = "cpu_threshold_breach")) = [] :=
  List.filter_eq_nil_iff.2 fun f hf => by simp [memory_check_types o f hf]

theorem disk_check_filter_cpu (o : Option DiskData) :
    (disk_threshold_check o).filter (fun f => decide (f.type = "cpu_threshold_breach")) = [] :=
  List.filter_eq_nil_iff.2 fun f hf => by simp [disk_check_types o f hf]

theorem network_check_filter_cpu (o : Option NetworkData) :
    (network_latency_check o).filter (fun f => decide (f.type = "cpu_threshold_breach")) = [] :=
  List.filter_eq_nil_iff.2 fun f hf => by simp [network_check_types o f hf]

/-- C5: a cpu usage of 96 yields exactly one cpu-threshold-breach Finding and
it is `critical`; 82 yields exactly one and it is `high`; 50 yields none —
whatever the other metric groups carry; and a snapshot breaching all four
thresholds at once yields all four Findings, one per metric. -/
theorem C5_threshold_detector :
    (∀ (m : MetricsData) (c : CpuData), m.cpu = some c → c.usage_percent = some 96 →
        (detect_threshold_anomalies m).filter (fun f => decide (f.type = "cpu_threshold_breach"))
          = [{ type := "cpu_threshold_breach", severity := "critical", value := some 96,
               threshold := some 80, suggested_action := "identify_cpu_intensive_processes" }]) ∧
    (∀ (m : MetricsData) (c : CpuData), m.cpu = some c → c.usage_percent = some 82 →
        (detect_threshold_anomalies m).filter (fun f => decide (f.type = "cpu_threshold_breach"))
          = [{ type := "cpu_threshold_breach", severity := "high", value := some 82,
               threshold := some 80, suggested_action := "identify_cpu_intensive_processes" }]) ∧
    (∀ (m : MetricsData) (c : CpuData), m.cpu = some c → c.usage_percent = some 50 →
        (detect_threshold_anomalies m).filter
          (fun f => decide (f.type = "cpu_threshold_breach")) = []) ∧
    detect_threshold_anomalies fullBreach =
      [{ type := "cpu_threshold_breach", severity := "critical", value := some 96,
         threshold := some 80, suggested_action := "identify_cpu_intensive_processes" },
       { type := "memory_threshold_breach", severity := "critical", value := some 96,
         threshold := some 85, suggested_action := "free_memory_resources" },
       { type := "disk_threshold_breach", severity := "critical", value := some 99,
         threshold := some 90, suggested_action := "cleanup_disk_space" },
       { type := "network_latency_high", severity := "medium", value := some 250,
         threshold := some 200, suggested_action := "check_network_connectivity" }] := by
  refine ⟨?_, ?_, ?_, ?_⟩
  · intro m c h1 h2
    norm_num [detect_threshold_anomalies, List.filter_append, memory_check_filter_cpu,
      disk_check_filter_cpu, network_check_filter_cpu, h1, cpu_threshold_check, h2]
  · intro m c h1 h2
    norm_num [detect_threshold_anomalies, List.filter_append, memory_check_filter_cpu,
      disk_check_filter_cpu, network_check_filter_cpu, h1, cpu_threshold_check, h2]
  · intro m c h1 h2
    norm_num [detect_threshold_anomalies, List.filter_append, memory_check_filter_cpu,
      disk_check_filter_cpu, network_check_filter_cpu, h1, cpu_threshold_check, h2]
  · norm_num [detect_threshold_anomalies, fullBreach, cpu_threshold_check,
      memory_threshold_check, disk_threshold_check, network_latency_check]

theorem C5_threshold_detector_witness :
    (detect_threshold_anomalies (cpuSnap 96)).filter
        (fun f => decide (f.type = "cpu_threshold_breach"))
      = [{ type := "cpu_threshold_breach", severity := "critical", value := some 96,
           threshold := some 80, suggested_action := "identify_cpu_intensive_processes" }] ∧
    (detect_threshold_anomalies (cpuSnap 82)).filter
        (fun f => decide (f.type = "cpu_threshold_breach"))
      = [{ type := "cpu_threshold_breach", severity := "high", value := some 82,
           threshold := some 80, suggested_action := "identify_cpu_intensive_processes" }] ∧
    (detect_threshold_anomalies (cpuSnap 50)).filter
        (fun f => decide (f.type = "cpu_threshold_breach")) = [] :=
  ⟨C5_threshold_detector.1 (cpuSnap 96) { usage_percent := some 96 } rfl rfl,
   C5_threshold_detector.2.1 (cpuSnap 82) { usage_percent := some 82 } rfl rfl,
   C5_threshold_detector.2.2.1 (cpuSnap 50) { usage_percent := some 50 } rfl rfl⟩

/-- C6 counterexample: the system feature vector is not fixed-length — a
snapshot carrying only a cpu group yields a 4-entry vector while a snapshot
with cpu, memory and disk groups yields 11 entries, refuting the claim's
fixed-length clause for the system family. -/
theorem C6_counterexample :
    (extract_system_features (cpuSnap 50)).map List.length = some 4 ∧
    (extract_system_features fullBreach).map List.length = some 11 ∧
    (4 : Nat) ≠ 11 := by
  refine ⟨rfl, rfl, by decide⟩

/-- C6 (amended): `extract` returns absent exactly when the snapshot lacks
every relevant group of the family (the `network` group; all of `cpu`,
`memory`, `disk`); otherwise the vector concatenates one fixed-length,
fixed-order block per *present* group (cpu 4, memory 3, disk 4; network 6) —
so the system vector's length varies with which groups are present — and a
missing field inside a present group contributes 0 at its position. -/
theorem C6_feature_extraction_amended :
    (∀ m : MetricsData, extract_network_features m = none ↔ m.network = none) ∧
    (∀ (m : MetricsData) (n : NetworkData), m.network = some n →
        extract_network_features m =
          some [n.latency_ms.getD 0, n.packet_loss_percent.getD 0,
                n.bandwidth_usage_percent.getD 0, n.connections_count.getD 0,
                n.bytes_sent_per_sec.getD 0, n.bytes_recv_per_sec.getD 0]) ∧
    (∀ m : MetricsData, extract_system_features m = none ↔
        m.cpu = none ∧ m.memory = none ∧ m.disk = none) ∧
    (∀ (m : MetricsData) (v : List Rat), extract_system_features m = some v →
        v = (match m.cpu with
             | some c => [c.usage_percent.getD 0, c.load_avg_1m.getD 0, c.load_avg_5m.getD 0,
                          c.context_switches.getD 0]
             | none => []) ++
            (match m.memory with
             | some mm => [mm.usage_percent.getD 0, mm.available_mb.getD 0,
                           mm.swap_usage_percent.getD 0]
             | none => []) ++
            (match m.disk with
             | some dd => [dd.usage_percent.getD 0, dd.read_bytes_per_sec.getD 0,
                           dd.write_bytes_per_sec.getD 0, dd.io_wait_percent.getD 0]
             | none => [])) ∧
    (∀ (m : MetricsData) (v : List Rat), extract_system_features m = some v →
        v.length = (if m.cpu.isSome then 4 else 0) + (if m.memory.isSome then 3 else 0) +
                   (if m.disk.isSome then 4 else 0)) ∧
    (∀ w : Rat, extract_system_features { cpu := some { load_avg_1m := some w } } =
        some [0, w, 0, 0]) ∧
    (∀ w : Rat, extract_network_features { network := some { latency_ms := some w } } =
        some [w, 0, 0, 0, 0, 0]) := by
  refine ⟨?_, ?_, ?_, ?_, ?_, ?_, ?_⟩
  · rintro ⟨mc, mm, md, mn⟩
    cases mn <;> simp [extract_network_features]
  · rintro ⟨mc, mm, md, mn⟩ n h
    cases mn <;> simp_all [extract_network_features]
  · rintro ⟨mc, mm, md, mn⟩
    cases mc <;> cases mm <;> cases md <;> simp [extract_system_features]
  · rintro ⟨mc, mm, md, mn⟩ v h
    cases mc <;> cases mm <;> cases md <;>
      simp only [extract_system_features, List.nil_append, List.append_nil, List.append_assoc,
        List.cons_append, List.isEmpty_cons, List.isEmpty_nil, if_true, if_false,
        Bool.false_eq_true, Option.some.injEq, reduceCtorEq] at h ⊢ <;>
      first
        | exact absurd h (by simp)
        | exact h.symm
  · rintro ⟨mc, mm, md, mn⟩ v h
    cases mc <;> cases mm <;> cases md <;>
      simp only [extract_system_features, List.nil_append, List.append_nil, List.append_assoc,
        List.cons_append, List.isEmpty_cons, List.isEmpty_nil, if_true, if_false,
        Bool.false_eq_true, Option.some.injEq, Option.isSome_some, Option.isSome_none,
        reduceCtorEq] at h ⊢ <;>
      first
        | exact absurd h (by simp)
        | (rw [← h]; rfl)
  · intro w
    rfl
  · intro w
    rfl

theorem C6_feature_extraction_amended_witness :
    extract_network_features (cpuSnap 50) = none ∧
    extract_network_features (netSnap 250) =
      some [250, 0, 0, 0, 0, 0] ∧
    extract_system_features (netSnap 250) = none ∧
    (([96, 0, 0, 0, 96, 0, 0, 99, 0, 0, 0] : List Rat) =
      [96, 0, 0, 0] ++ [96, 0, 0] ++ [99, 0, 0, 0]) ∧
    ([(50 : Rat), 0, 0, 0].length =
      (if (cpuSnap 50).cpu.isSome then 4 else 0) +
      (if (cpuSnap 50).memory.isSome then 3 else 0) +
      (if (cpuSnap 50).disk.isSome then 4 else 0)) :=
  ⟨(C6_feature_extraction_amended.1 (cpuSnap 50)).2 rfl,
   C6_feature_extraction_amended.2.1 (netSnap 250) { latency_ms := some 250 } rfl,
   (C6_feature_extraction_amended.2.2.1 (netSnap 250)).2 ⟨rfl, rfl, rfl⟩,
   C6_feature_extraction_amended.2.2.2.1 fullBreach
     [96, 0, 0, 0, 96, 0, 0, 99, 0, 0, 0] rfl,
   C6_feature_extraction_amended.2.2.2.2.1 (cpuSnap 50) [50, 0, 0, 0] rfl⟩

/-- C7: each outlier-model detector emits nothing below its minimum history
depth (50 for system, 30 for network); any Finding it emits has severity
`if score < cut then "high" else "medium"` — so severity is `high` exactly
when the model's anomaly score is below −0.5 (system) resp. −0.3 (network)
and `medium` otherwise; and when the depth and training-vector gates are met
and the model labels the snapshot an outlier, a Finding is indeed emitted. -/
theorem C7_outlier_gating_severity :
    (∀ (oracle : ModelOracle) (hist : List MetricsData),
        hist.length < 50 → detect_system_anomalies oracle hist = []) ∧
    (∀ (oracle : ModelOracle) (hist : List MetricsData),
        ∀ f ∈ detect_system_anomalies oracle hist,
          f.severity = if oracle.score < -(1/2) then "high" else "medium") ∧
    (∀ (oracle : ModelOracle) (hist : List MetricsData),
        ∀ f ∈ detect_system_anomalies oracle hist,
          (f.severity = "high" ↔ oracle.score < -(1/2))) ∧
    (∀ (oracle : ModelOracle) (hist : List MetricsData),
        hist.length < 30 → detect_network_anomalies oracle hist = []) ∧
    (∀ (oracle : ModelOracle) (hist : List MetricsData),
        ∀ f ∈ detect_network_anomalies oracle hist,
          f.severity = if oracle.score < -(3/10) then "high" else "medium") ∧
    (∀ (oracle : ModelOracle) (hist : List MetricsData),
        ∀ f ∈ detect_network_anomalies oracle hist,
          (f.severity = "high" ↔ oracle.score < -(3/10))) ∧
    (∀ (oracle : ModelOracle) (hist : List MetricsData),
        50 < hist.length →
        10 < ((lastN 50 hist).filterMap extract_system_features).length →
        oracle.label = -1 → detect_system_anomalies oracle hist ≠ []) := by
  refine ⟨?_, ?_, ?_, ?_, ?_, ?_, ?_⟩
  · intro oracle hist h
    rw [detect_system_anomalies, if_neg (by omega)]
  · intro oracle hist f hf
    simp only [detect_system_anomalies] at hf
    split at hf
    · split at hf
      · split at hf
        · simp only [List.mem_singleton] at hf
          subst hf
          rfl
        · simp at hf
      · simp at hf
    · simp at hf
  · intro oracle hist f hf
    simp only [detect_system_anomalies] at hf
    split at hf
    · split at hf
      · split at hf
        · simp only [List.mem_singleton] at hf
          subst hf
          by_cases hc : oracle.score < -(1/2) <;> simp [hc]
        · simp at hf
      · simp at hf
    · simp at hf
  · intro oracle hist h
    rw [detect_network_anomalies, if_neg (by omega)]
  · intro oracle hist f hf
    simp only [detect_network_anomalies] at hf
    split at hf
    · split at hf
      · split at hf
        · simp only [List.mem_singleton] at hf
          subst hf
          rfl
        · simp at hf
      · simp at hf
    · simp at hf
  · intro oracle hist f hf
    simp only [detect_network_anomalies] at hf
    split at hf
    · split at hf
      · split at hf
        · simp only [List.mem_singleton] at hf
          subst hf
          by_cases hc : oracle.score < -(3/10) <;> simp [hc]
        · simp at hf
      · simp at hf
    · simp at hf
  · intro oracle hist h1 h2 h3
    rw [detect_system_anomalies, if_pos h1]
    simp only [if_pos h2, h3, if_pos rfl]
    simp

/-- C10: an uninitialized engine's `detect_anomalies` returns the empty list
and is a pure no-op on the whole engine state: no buffer append, no change to
models, scalers or pattern state. -/
theorem C10_uninitialized_no_op (μ σ π : Type) (st : AIEngineState μ σ π)
    (m : MetricsData) (h : st.initialized = false) :
    detect_anomalies st m = ([], st) := by
  simp [detect_anomalies, h]

theorem C7_outlier_gating_severity_witness :
    detect_system_anomalies { label := -1, score := -1 } [] = [] ∧
    (({ type := "system_anomaly", severity := "medium", score := some 0,
        suggested_action := "investigate_system_resources" } : Finding).severity =
      if (0 : Rat) < -(1/2) then "high" else "medium") ∧
    (({ type := "system_anomaly", severity := "high", score := some (-1),
        suggested_action := "investigate_system_resources" } : Finding).severity = "high" ↔
      ((-1 : Rat) < -(1/2))) ∧
    detect_network_anomalies { label := -1, score := -1 } [] = [] ∧
    (({ type := "network_anomaly", severity := "medium", score := some 0,
        suggested_action := "check_network_connectivity" } : Finding).severity =
      if (0 : Rat) < -(3/10) then "high" else "medium") ∧
    (({ type := "network_anomaly", severity := "high", score := some (-1),
        suggested_action := "check_network_connectivity" } : Finding).severity = "high" ↔
      ((-1 : Rat) < -(3/10))) ∧
    detect_system_anomalies { label := -1, score := -1 } hist51 ≠ [] :=
  ⟨C7_outlier_gating_severity.1 { label := -1, score := -1 } [] (by simp),
   C7_outlier_gating_severity.2.1 { label := -1, score := 0 } hist51 _
     (by norm_num [detect_system_anomalies, hist51, cpuSnap, extract_system_features, lastN,
           List.replicate, List.filterMap_cons]),
   C7_outlier_gating_severity.2.2.1 { label := -1, score := -1 } hist51 _
     (by norm_num [detect_system_anomalies, hist51, cpuSnap, extract_system_features, lastN,
           List.replicate, List.filterMap_cons]),
   C7_outlier_gating_severity.2.2.2.1 { label := -1, score := -1 } [] (by simp),
   C7_outlier_gating_severity.2.2.2.2.1 { label := -1, score := 0 } hist31 _
     (by norm_num [detect_network_anomalies, hist31, netSnap, extract_network_features, lastN,
           List.replicate, List.filterMap_cons]),
   C7_outlier_gating_severity.2.2.2.2.2.1 { label := -1, score := -1 } hist31 _
     (by norm_num [detect_network_anomalies, hist31, netSnap, extract_network_features, lastN,
           List.replicate, List.filterMap_cons]),
   C7_outlier_gating_severity.2.2.2.2.2.2 { label := -1, score := -1 } hist51
     (by simp [hist51])
     (by norm_num [hist51, cpuSnap, extract_system_features, lastN, List.replicate,
           List.filterMap_cons])
     rfl⟩

theorem cpu_trend_rule_types (hist : List MetricsData) :
    ∀ f ∈ cpu_trend_rule hist, f.type = "cpu_trend_anomaly" := by
  intro f hf
  simp only [cpu_trend_rule] at hf
  split at hf
  · split at hf
    · simp only [List.mem_singleton] at hf; rw [hf]
    · simp at hf
  · simp at hf

theorem memory_leak_rule_types (hist : List MetricsData) :
    ∀ f ∈ memory_leak_rule hist, f.type = "memory_leak_pattern" := by
  intro f hf
  simp only [memory_leak_rule] at hf
  split at hf
  · split at hf
    · simp only [List.mem_singleton] at hf; rw [hf]
    · simp at hf
  · simp at hf

/-- C2 counterexample: a buffer holding exactly the 15 snapshots with CPU
values `[10]*10 + [45]*5` — the concrete input on which the claim demands a
rapid-increase Finding — produces no Finding at all, because the pattern
detector returns early whenever fewer than 20 samples are buffered. -/
theorem C2_counterexample :
    hist15.length = 15 ∧
    cpuValuesOf hist15 = List.replicate 10 (10 : Rat) ++ List.replicate 5 45 ∧
    detect_pattern_anomalies hist15 = [] := by
  refine ⟨by simp [hist15], ?_, ?_⟩
  · norm_num [cpuValuesOf, hist15, lastN, cpuSnap, List.replicate, List.filterMap_cons]
  · norm_num [detect_pattern_anomalies, hist15, List.replicate]

/-- C2 (amended): the pattern detector emits nothing unless the buffer holds
at least 20 samples; when it does and at least 15 of the last 20 samples
carry cpu values, a high-severity cpu_trend_anomaly Finding is emitted
exactly when the mean of the most recent 5 cpu values exceeds the mean of
the values ranked 11th–15th back by more than 30 points; for 20 buffered
snapshots with cpu values `[10]*15 + [45]*5` exactly that Finding is
emitted, and for `[10]*20` none is. -/
theorem C2_cpu_trend_amended :
    (∀ hist : List MetricsData, hist.length < 20 → detect_pattern_anomalies hist = []) ∧
    (∀ hist : List MetricsData, 20 ≤ hist.length → 15 ≤ (cpuValuesOf hist).length →
        (((detect_pattern_anomalies hist).filter
            (fun f => decide (f.type = "cpu_trend_anomaly"))) ≠ [] ↔
          mean (((cpuValuesOf hist).drop ((cpuValuesOf hist).length - 15)).take 5) + 30 <
            mean (lastN 5 (cpuValuesOf hist)))) ∧
    detect_pattern_anomalies hist20rise =
      [{ type := "cpu_trend_anomaly", severity := "high",
         suggested_action := "investigate_cpu_spike" }] ∧
    detect_pattern_anomalies hist20flat = [] := by
  refine ⟨?_, ?_, ?_, ?_⟩
  · intro hist h
    rw [detect_pattern_anomalies, if_pos h]
  · intro hist h1 h2
    rw [detect_pattern_anomalies, if_neg (by omega), List.filter_append]
    have hm : (memory_leak_rule hist).filter
        (fun f => decide (f.type = "cpu_trend_anomaly")) = [] :=
      List.filter_eq_nil_iff.2 fun f hf => by simp [memory_leak_rule_types hist f hf]
    rw [hm, List.append_nil]
    simp only [cpu_trend_rule, if_pos h2]
    split_ifs with hc
    · simp [hc]
    · simp [hc]
  · norm_num [detect_pattern_anomalies, hist20rise, cpu_trend_rule, memory_leak_rule,
      cpuValuesOf, lastN, cpuSnap, mean, List.replicate, List.filterMap_cons]
  · norm_num [detect_pattern_anomalies, hist20flat, cpu_trend_rule, memory_leak_rule,
      cpuValuesOf, lastN, cpuSnap, mean, List.replicate, List.filterMap_cons]

theorem C2_cpu_trend_amended_witness :
    detect_pattern_anomalies hist15 = [] ∧
    (((detect_pattern_anomalies hist20rise).filter
        (fun f => decide (f.type = "cpu_trend_anomaly"))) ≠ [] ↔
      mean (((cpuValuesOf hist20rise).drop ((cpuValuesOf hist20rise).length - 15)).take 5) + 30 <
        mean (lastN 5 (cpuValuesOf hist20rise))) :=
  ⟨C2_cpu_trend_amended.1 hist15 (by simp [hist15]),
   C2_cpu_trend_amended.2.1 hist20rise (by simp [hist20rise])
     (by norm_num [cpuValuesOf, hist20rise, lastN, cpuSnap, List.replicate,
           List.filterMap_cons])⟩

/-- C8 counterexample: with exactly the first 10 snapshots of the 60-sample
memory ramp buffered — the claim's "once ≥ 10 samples are buffered" — the
memory prediction is `none`: the fitted slope 60/59 is positive, but the
extrapolated time to 95% (about 74.6 sample-intervals) exceeds the
50-interval horizon. -/
theorem C8_counterexample :
    (rampMem 10).length = 10 ∧
    (predict_failure (rampMem 10) (memSnap 70)).2 = none := by
  refine ⟨by rw [rampMem, List.length_map, List.length_range], ?_⟩
  norm_num [predict_failure, rampMem, memSnap, lastN, polyfitSlope, List.filterMap_cons,
    List.range_succ]

/-- C8 (amended): a failure prediction is reported for a resource only if the
fitted slope is positive (the code demands > 0.1 for disk, > 0.5 for memory)
and the extrapolated time to the failure threshold (100% disk / 95% memory)
is within the bounded horizon (100 / 50 sample-intervals), with confidence
never exceeding 0.9 (disk) / 0.85 (memory); in the scenario of memory usage
rising linearly from 10% to 70% over 60 snapshots, the memory prediction is
non-none with positive trend once 35 samples are buffered — in particular
after all 60 — while at 10 buffered samples it is still none. -/
theorem C8_failure_prediction_amended :
    (∀ (hist : List MetricsData) (m : MetricsData) (p : FailurePrediction),
        (predict_failure hist m).1 = some p →
          0 < p.trend ∧ (100 - p.current_usage) / p.trend < 100 ∧ p.confidence ≤ 9/10) ∧
    (∀ (hist : List MetricsData) (m : MetricsData) (p : FailurePrediction),
        (predict_failure hist m).2 = some p →
          0 < p.trend ∧ (95 - p.current_usage) / p.trend < 50 ∧ p.confidence ≤ 17/20) ∧
    (predict_failure (rampMem 35) (memSnap 70)).2 =
      some { time_to_failure := 49, confidence := 17/20, current_usage := 2630/59,
             trend := 60/59 } ∧
    (predict_failure (rampMem 60) (memSnap 70)).2 =
      some { time_to_failure := 24, confidence := 17/20, current_usage := 70,
             trend := 60/59 } ∧
    (0 : Rat) < 60/59 := by
  refine ⟨?_, ?_, ?_, ?_, by norm_num⟩
  · intro hist m p h
    simp only [predict_failure] at h
    split at h
    · simp at h
    · rcases hd : m.disk with _ | dd
      · rw [hd] at h; simp at h
      · rw [hd] at h
        simp only at h
        split_ifs at h with h5 h1 h2 <;>
          simp only [Option.some.injEq, reduceCtorEq] at h
        subst h
        exact ⟨lt_trans (by norm_num) h1, h2, min_le_left _ _⟩
  · intro hist m p h
    simp only [predict_failure] at h
    split at h
    · simp at h
    · rcases hd : m.memory with _ | mm
      · rw [hd] at h; simp at h
      · rw [hd] at h
        simp only at h
        split_ifs at h with h5 h1 h2 <;>
          simp only [Option.some.injEq, reduceCtorEq] at h
        subst h
        exact ⟨lt_trans (by norm_num) h1, h2, min_le_left _ _⟩
  · norm_num [predict_failure, rampMem, memSnap, lastN, polyfitSlope, List.filterMap_cons,
      List.range_succ, ratTrunc]
  · norm_num [predict_failure, rampMem, memSnap, lastN, polyfitSlope, List.filterMap_cons,
      List.range_succ, ratTrunc]

theorem C8_failure_prediction_amended_witness :
    (0 : Rat) <
      ({ time_to_failure := 24, confidence := 17/20, current_usage := 70,
         trend := 60/59 } : FailurePrediction).trend ∧
    (95 - ({ time_to_failure := 24, confidence := 17/20, current_usage := 70,
             trend := 60/59 } : FailurePrediction).current_usage) /
      ({ time_to_failure := 24, confidence := 17/20, current_usage := 70,
         trend := 60/59 } : FailurePrediction).trend < 50 ∧
    ({ time_to_failure := 24, confidence := 17/20, current_usage := 70,
       trend := 60/59 } : FailurePrediction).confidence ≤ 17/20 :=
  C8_failure_prediction_amended.2.1 (rampMem 60) (memSnap 70)
    { time_to_failure := 24, confidence := 17/20, current_usage := 70, trend := 60/59 }
    C8_failure_prediction_amended.2.2.2.1

theorem C10_uninitialized_no_op_witness :
    detect_anomalies
        ({ initialized := false, historical_data := [cpuSnap 10], anomaly_models := (),
           scalers := (), patterns := () } : AIEngineState Unit Unit Unit) fullBreach
      = ([], { initialized := false, historical_data := [cpuSnap 10], anomaly_models := (),
               scalers := (), patterns := () }) :=
  C10_uninitialized_no_op Unit Unit Unit
    { initialized := false, historical_data := [cpuSnap 10], anomaly_models := (),
      scalers := (), patterns := () } fullBreach rfl

end SysMon
